import Mathlib

/-!
Shallow embedding of the e2b-go client transport layer: the routing table
(sync.Map), the dispatcher read loop, the request write path, the id
allocator, the one-shot call handlers, and the subscription consumer loops.
Each definition is translated from the corresponding Go source.
-/

namespace E2B

/-- A correlation key in the routing table: the Go sync.Map is keyed either by
a numeric request id (an int) or by a subscription token (a string), as set in
transport.go `read` lines 125-129. -/
inductive Key where
  | num : Nat → Key
  | str : String → Key
deriving DecidableEq, Repr

/-- A value stored in the routing table. `writeRequest` and process `subscribe`
store a `chan []byte` (modelled `byteCh`, identified by a channel id); `Watch`
stores its `chan<- Event` (modelled `eventCh`). The read loop type-asserts to
`chan []byte` and requeues the frame when the assertion fails. -/
inductive Waiter where
  | byteCh : Nat → Waiter
  | eventCh : Nat → Waiter
deriving DecidableEq, Repr

/-- The routing table `s.Map : *sync.Map`, modelled as an association list. -/
abbrev Table := List (Key × Waiter)

/-- sync.Map.Load. -/
def Table.load (t : Table) (k : Key) : Option Waiter :=
  match t.find? (fun p => p.1 == k) with
  | some p => some p.2
  | none => none

/-- sync.Map.Store (overwrites any existing entry for the key). -/
def Table.store (t : Table) (k : Key) (v : Waiter) : Table :=
  (k, v) :: t.filter (fun p => p.1 != k)

/-- sync.Map.Delete. -/
def Table.delete (t : Table) (k : Key) : Table :=
  t.filter (fun p => p.1 != k)

/-- The partial decode the dispatcher performs on each inbound frame
(transport.go lines 103-109): method, top-level id, and params.subscription.
A missing id field decodes to the zero value 0. -/
structure DecResp where
  method : String
  id : Nat
  subscription : String
deriving DecidableEq, Repr

/-- An inbound frame: a raw byte body, abstracted by whether
`json.Unmarshal` into `decResp` succeeds and what it yields. -/
inductive Frame where
  | wellFormed : DecResp → Frame
  | malformed : Frame
deriving DecidableEq, Repr

/-- json.Unmarshal of the frame body into decResp (transport.go line 121). -/
def decode : Frame → Option DecResp
  | .wellFormed d => some d
  | .malformed => none

/-- Correlation-key extraction, transport.go lines 125-129:
key := params.subscription; if id != 0 then key := id. -/
def dispatchKey (d : DecResp) : Key :=
  if d.id ≠ 0 then Key.num d.id else Key.str d.subscription

/-- State of the dispatcher read loop (`Sandbox.read`): the buffered `msgCh`
queue, the routing table, the deliveries made so far (channel id, frame body),
the waiter channels that have been closed (the source closes none), and
whether the deferred `s.ws.Close()` has run. -/
structure ReadState where
  msgQueue : List Frame
  table : Table
  delivered : List (Nat × Frame)
  closedChans : List Nat
  wsClosed : Bool
deriving DecidableEq, Repr

/-- One execution of the `case body = <-msgCh` branch of the read loop
(transport.go lines 119-145), on a body already popped from the queue:
a decode failure returns the error (terminating the loop); a key with no
table entry, or one whose value fails the `chan []byte` type assertion,
requeues the body at the back of the queue; otherwise the body is sent on
the waiter channel. -/
def processFrame (s : ReadState) (body : Frame) : Except String ReadState :=
  match decode body with
  | none => Except.error "unmarshal"
  | some d =>
    match s.table.load (dispatchKey d) with
    | some (Waiter.byteCh ch) =>
      Except.ok { s with delivered := s.delivered ++ [(ch, body)] }
    | some (Waiter.eventCh _) =>
      Except.ok { s with msgQueue := s.msgQueue ++ [body] }
    | none =>
      Except.ok { s with msgQueue := s.msgQueue ++ [body] }

/-- The dispatcher loop (transport.go lines 117-155), fuelled. The frames the
websocket will yield are pre-loaded into the queue (the `default` branch that
reads the socket only feeds `msgCh`); an empty queue ends the run. A decode
error makes `read` return that error, ending the loop; the table is never
modified by the loop itself. -/
def readLoop : Nat → ReadState → ReadState × Option String
  | 0, s => (s, none)
  | Nat.succ n, s =>
    match s.msgQueue with
    | [] => (s, none)
    | body :: rest =>
      match processFrame { s with msgQueue := rest } body with
      | Except.error e => ({ s with msgQueue := rest }, some e)
      | Except.ok next => readLoop n next

/-- `Sandbox.read` including its deferred `s.ws.Close()` (lines 110-115):
on return, only the websocket is closed; no waiter channel is closed and no
synthetic frame is delivered. -/
def readRun (fuel : Nat) (s : ReadState) : ReadState × Option String :=
  match readLoop fuel s with
  | (s1, e) => ({ s1 with wsClosed := true }, e)

/-- The channel a frame is routed to under table `t`: the dispatch key's
entry, provided the frame decodes and the entry passes the `chan []byte`
type assertion. -/
def route (t : Table) (f : Frame) : Option Nat :=
  match decode f with
  | none => none
  | some d =>
    match t.load (dispatchKey d) with
    | some (Waiter.byteCh ch) => some ch
    | _ => none

/-- State of a Go context at the moment a `select` chooses between its
`ctx.Done()` case and another case: `canceled` means the Done case fires. -/
inductive CtxState where
  | live
  | canceled
deriving DecidableEq, Repr

/-- The JSON-RPC response envelope `Response[T, Q]` (transport.go 27-31). -/
structure Response (T Q : Type) where
  id : Nat
  result : T
  error : Q
deriving DecidableEq, Repr

/-- APIError (transport.go 34-37). -/
structure APIError where
  code : Nat
  message : String
deriving DecidableEq, Repr

/-- LsResult (part_000 36-39). -/
structure LsResult where
  name : String
  isDir : Bool
deriving DecidableEq, Repr

/-- Errors a one-shot call can return, as distinct values. -/
inductive CallError where
  | ctxCanceled
  | writeFailed
  | decodeFailed
  | apiError (code : Nat) (msg : String)
  | remoteErrorStr (msg : String)
deriving DecidableEq, Repr

/-- `Sandbox.writeRequest` (transport.go 158-196): select between
`ctx.Done()` (return ctx.Err(), no table change) and receiving `id` from
`s.idCh`; after receiving an id it stores respCh in the map under the
numeric id, then writes the frame on the websocket; a write failure is
returned AFTER the store, so the entry stays either way. -/
def writeRequest (ctx : CtxState) (id respCh : Nat) (wsOk : Bool) (t : Table) :
    Option CallError × Table :=
  match ctx with
  | .canceled => (some CallError.ctxCanceled, t)
  | .live =>
    match t.store (Key.num id) (Waiter.byteCh respCh) with
    | t1 => if wsOk then (none, t1) else (some CallError.writeFailed, t1)

/-- `Sandbox.Mkdir` (part_000 54-73). `ctxW` is the context state when
`writeRequest` selects; `ctxS` when the reply `select` runs; `body` is the
reply decoded as `Response[string, APIError]`, `none` if decoding fails.
No branch deletes the table entry. -/
def Mkdir (ctxW ctxS : CtxState) (id respCh : Nat) (wsOk : Bool) (t : Table)
    (body : Option (Response String APIError)) : Option CallError × Table :=
  match writeRequest ctxW id respCh wsOk t with
  | (some e, t1) => (some e, t1)
  | (none, t1) =>
    match ctxS with
    | .canceled => (some CallError.ctxCanceled, t1)
    | .live =>
      match body with
      | none => (some CallError.decodeFailed, t1)
      | some resp =>
        if resp.error.code ≠ 0 then
          (some (CallError.apiError resp.error.code resp.error.message), t1)
        else (none, t1)

/-- The reply handling of `Sandbox.Ls` (part_000 85-90): decode as
`Response[[]LsResult, string]` and return `res.Result` — the `Error` field
of the envelope is never inspected. -/
def lsHandleBody (body : Option (Response (List LsResult) String)) :
    Except CallError (List LsResult) :=
  match body with
  | none => Except.error CallError.decodeFailed
  | some res => Except.ok res.result

/-- The reply handling of `Sandbox.Read` (part_000 109-117): decode as
`Response[string, string]`; a non-empty Error string is surfaced as an
error, otherwise the result is returned. -/
def readHandleBody (body : Option (Response String String)) :
    Except CallError String :=
  match body with
  | none => Except.error CallError.decodeFailed
  | some res =>
    if res.error ≠ "" then Except.error (CallError.remoteErrorStr res.error)
    else Except.ok res.result

/-- The reply handling of `Sandbox.Write` (part_000 131-136): the body is
unmarshalled into an empty `Request{}` solely to check it parses; no error
field of any kind is examined, and success is returned for every parseable
body. -/
def writeHandleBody (body : Option (Response String String)) :
    Except CallError Unit :=
  match body with
  | none => Except.error CallError.decodeFailed
  | some _ => Except.ok ()

/-- Two's-complement wrap of a mathematical integer into the range of a
64-bit Go `int`, [-2^63, 2^63): the arithmetic `id++` actually performs. -/
def wrapInt64 (x : Int) : Int :=
  (x + 2 ^ 63) % 2 ^ 64 - 2 ^ 63

/-- The `id++` of identify's loop body (transport.go line 206), in Go
`int` (64-bit, wrapping) arithmetic. -/
def identifyStep (id : Int) : Int :=
  wrapInt64 (id + 1)

/-- The value `identify` (transport.go 198-209) sends on its k-th send
(0-based): `id` starts at 1 (line 199), each send of the current id on the
unbuffered `s.idCh` — which hands each value to exactly one receiver — is
followed by `id++`. -/
def identifyNth : Nat → Int
  | 0 => 1
  | Nat.succ k => identifyStep (identifyNth k)

/-- EventResult (part_000 27-33). -/
structure EventResult where
  type : String
  line : String
  timestamp : Int
  isDirectory : Bool
  error : String
deriving DecidableEq, Repr

/-- EventParams (part_000 21-24). -/
structure EventParams where
  subscription : String
  result : EventResult
deriving DecidableEq, Repr

/-- Event (part_000 12-18). -/
structure Event where
  path : String
  name : String
  timestamp : Int
  error : String
  params : EventParams
deriving DecidableEq, Repr

/-- What one iteration of a subscription consumer loop does with an
incoming body. -/
inductive ConsumerAction where
  | forward (e : Event)
  | skip
  | stop
deriving DecidableEq, Repr

/-- One iteration of the `Watch` consumer goroutine (part_000 211-223):
an unmarshal failure returns; a non-empty top-level `Error` returns; an
event whose `Params.Subscription` differs from the watched PATH is skipped;
otherwise the event is forwarded on `eCh`. -/
def watchStep (path : String) (body : Option Event) : ConsumerAction :=
  match body with
  | none => ConsumerAction.stop
  | some event =>
    if event.error ≠ "" then ConsumerAction.stop
    else if event.params.subscription ≠ path then ConsumerAction.skip
    else ConsumerAction.forward event

/-- One iteration of the process `subscribe` consumer loop (part_002
149-156): the unmarshal error is discarded, a non-empty `Error` is logged
and the loop CONTINUES, and every other event is forwarded unconditionally —
its `Params.Subscription` field is never compared with the token. -/
def subscribeStep (event : Event) : ConsumerAction :=
  if event.error ≠ "" then ConsumerAction.skip
  else ConsumerAction.forward event

/-- Run a consumer step function over a list of incoming events, collecting
the forwarded ones and stopping at the first `stop`. -/
def consumeAll (step : Event → ConsumerAction) : List Event → List Event
  | [] => []
  | e :: rest =>
    match step e with
    | ConsumerAction.forward ev => ev :: consumeAll step rest
    | ConsumerAction.skip => consumeAll step rest
    | ConsumerAction.stop => []

/-- Observable effects of a subscription goroutine's teardown. -/
structure SubTeardown where
  tableEntryDeleted : Bool
  unsubRequest : Option CtxState
  eventsClosed : Bool
  respChClosed : Bool
deriving DecidableEq, Repr

/-- The teardown section of the process `subscribe` goroutine (part_002
163-172), run after the event loop breaks: delete the token entry, create a
fresh cancellation scope from `context.Background()` (live regardless of the
caller's context `callerCtx`), issue the `process_unsubscribe` request under
it, and exit — closing `respCh` via the deferred close but never closing the
`events` output channel. -/
def subscribeFinish (callerCtx : CtxState) (token : String) (unsubId respCh : Nat)
    (t : Table) : Table × SubTeardown :=
  match callerCtx with
  | _ =>
    match t.delete (Key.str token) with
    | t1 =>
      match writeRequest CtxState.live unsubId respCh true t1 with
      | (_, t2) =>
        (t2, { tableEntryDeleted := true
             , unsubRequest := some CtxState.live
             , eventsClosed := false
             , respChClosed := true })

/-- The exit of the `Watch` consumer goroutine (part_000 206-226): on
context cancellation, decode failure or an error event it simply returns —
no unsubscribe request is made, no table entry removed, and no channel
closed by the goroutine. -/
def watchFinish (callerCtx : CtxState) : SubTeardown :=
  match callerCtx with
  | _ =>
    { tableEntryDeleted := false
    , unsubRequest := none
    , eventsClosed := false
    , respChClosed := false }

/-- `Process.Done` (part_002 101-108): `Map.Load(p.id)` with the process's
STRING id; when the lookup fails it returns nil, modelled `none`. -/
def Done (t : Table) (procId : String) : Option Waiter :=
  t.load (Key.str procId)

/-- The routing-table effect of `Process.Start` (part_002 70-76): its only
store is the one inside `writeRequest`, keyed by the NUMERIC request id. -/
def startStore (id respCh : Nat) (t : Table) : Table :=
  (writeRequest CtxState.live id respCh true t).2

/-! ## Helper lemmas -/

/-- Storing under a key makes it loadable with the stored value. -/
theorem Table.load_store (t : Table) (k : Key) (v : Waiter) :
    (t.store k v).load k = some v := by
  simp [Table.load, Table.store, List.find?]

/-- A successful `processFrame` step never touches the routing table nor the
set of closed channels. -/
theorem processFrame_preserves (s : ReadState) (body : Frame) (next : ReadState)
    (h : processFrame s body = Except.ok next) :
    next.table = s.table ∧ next.closedChans = s.closedChans := by
  rcases hdec : decode body with _ | d
  · simp [processFrame, hdec] at h
  · simp only [processFrame, hdec] at h
    rcases hl : s.table.load (dispatchKey d) with _ | w
    · simp only [hl] at h
      injection h with h
      subst h
      exact ⟨rfl, rfl⟩
    · cases w with
      | byteCh ch =>
        simp only [hl] at h
        injection h with h
        subst h
        exact ⟨rfl, rfl⟩
      | eventCh ch =>
        simp only [hl] at h
        injection h with h
        subst h
        exact ⟨rfl, rfl⟩

/-- The read loop never modifies the routing table and never closes a waiter
channel, whatever frames it processes. -/
theorem readLoop_preserves (fuel : Nat) :
    ∀ s : ReadState, (readLoop fuel s).1.table = s.table ∧
      (readLoop fuel s).1.closedChans = s.closedChans := by
  induction fuel with
  | zero => intro s; exact ⟨rfl, rfl⟩
  | succ n ih =>
    intro s
    rcases hq : s.msgQueue with _ | ⟨body, rest⟩
    · simp only [readLoop, hq]
      exact ⟨trivial, trivial⟩
    · simp only [readLoop, hq]
      cases hp : processFrame { s with msgQueue := rest } body with
      | error e =>
        simp only [hp]
        exact ⟨trivial, trivial⟩
      | ok next =>
        simp only [hp]
        have hpres := processFrame_preserves _ _ _ hp
        have hnext := ih next
        refine ⟨hnext.1.trans ?_, hnext.2.trans ?_⟩
        · simpa using hpres.1
        · simpa using hpres.2

/-- When every queued frame routes to a registered byte-channel waiter, the
loop drains the queue and appends, in order, one delivery per frame to the
channel the table routes it to. -/
theorem readLoop_matched_aux (t : Table) (fs : List Frame) :
    ∀ (acc : List (Nat × Frame)) (cc : List Nat) (wc : Bool),
    (∀ f ∈ fs, (route t f).isSome) →
    readLoop fs.length ⟨fs, t, acc, cc, wc⟩ =
      (⟨[], t, acc ++ fs.map (fun f => ((route t f).getD 0, f)), cc, wc⟩, none) := by
  induction fs with
  | nil => intro acc cc wc _; simp [readLoop]
  | cons f rest ih =>
    intro acc cc wc h
    have hf : (route t f).isSome := h f (List.mem_cons_self _ _)
    rcases hdec : decode f with _ | d
    · simp [route, hdec] at hf
    · rcases hl : t.load (dispatchKey d) with _ | w
      · simp [route, hdec, hl] at hf
      · cases w with
        | eventCh ch =>
          simp [route, hdec, hl] at hf
        | byteCh ch =>
          have hroute : route t f = some ch := by simp [route, hdec, hl]
          have hrest : ∀ g ∈ rest, (route t g).isSome :=
            fun g hg => h g (List.mem_cons_of_mem _ hg)
          have ihr := ih (acc ++ [(ch, f)]) cc wc hrest
          simp only [List.length_cons, readLoop, processFrame, hdec, hl]
          rw [ihr]
          simp [hroute]

/-! ## C1 -/

/-- Witness table for C1: two one-shot calls registered through
`writeRequest` under ids 1 and 2, with waiter channels 10 and 20. -/
def c1Table : Table :=
  (writeRequest CtxState.live 2 20 true (writeRequest CtxState.live 1 10 true []).2).2

/-- Witness frames for C1: the two replies arriving in 2-then-1 order. -/
def c1Frames : List Frame :=
  [Frame.wellFormed ⟨"", 2, ""⟩, Frame.wellFormed ⟨"", 1, ""⟩]

/-- C1 (confirmed): every inbound frame whose top-level id is non-zero is
routed under that numeric id, and otherwise under params.subscription
(`route` applies exactly the source's `dispatchKey` rule and table lookup);
when every queued frame has a registered waiter, a run of the dispatcher
loop delivers, in read order, each frame to precisely the waiter channel
registered under that frame's key — so deliveries depend only on each
frame's own id, not on arrival order — and a pair (c, f) is delivered iff
f was queued and routes to c. -/
theorem dispatch_routes_each_reply_to_its_waiter (t : Table) (fs : List Frame)
    (h : ∀ f ∈ fs, (route t f).isSome) :
    readLoop fs.length ⟨fs, t, [], [], false⟩ =
      (⟨[], t, fs.map (fun f => ((route t f).getD 0, f)), [], false⟩, none) ∧
    ∀ (c : Nat) (f : Frame),
      (c, f) ∈ (readLoop fs.length ⟨fs, t, [], [], false⟩).1.delivered ↔
        (f ∈ fs ∧ route t f = some c) := by
  have hmain := readLoop_matched_aux t fs [] [] false h
  refine ⟨by simpa using hmain, fun c f => ?_⟩
  rw [hmain]
  simp only [List.nil_append]
  rw [List.mem_map]
  constructor
  · rintro ⟨g, hg, hge⟩
    have h1 : (route t g).getD 0 = c := congrArg Prod.fst hge
    have h2 : g = f := congrArg Prod.snd hge
    subst h2
    subst h1
    refine ⟨hg, ?_⟩
    rcases hr : route t g with _ | ch
    · have hs := h g hg
      rw [hr] at hs
      simp at hs
    · simp [hr]
  · rintro ⟨hf, hr⟩
    exact ⟨f, hf, by simp [hr]⟩

/-- Witness for C1: with ids 1 and 2 registered and the server replying
2-then-1, channel 20 gets the id-2 reply and channel 10 the id-1 reply. -/
theorem dispatch_routes_each_reply_to_its_waiter_witness :
    (∀ f ∈ c1Frames, (route c1Table f).isSome) ∧
    (readLoop c1Frames.length ⟨c1Frames, c1Table, [], [], false⟩ =
      (⟨[], c1Table, c1Frames.map (fun f => ((route c1Table f).getD 0, f)), [], false⟩, none) ∧
    ∀ (c : Nat) (f : Frame),
      (c, f) ∈ (readLoop c1Frames.length ⟨c1Frames, c1Table, [], [], false⟩).1.delivered ↔
        (f ∈ c1Frames ∧ route c1Table f = some c)) :=
  ⟨by decide, dispatch_routes_each_reply_to_its_waiter c1Table c1Frames (by decide)⟩

/-! ## C2 -/

/-- C2 counterexample: a Mkdir call whose context is canceled while waiting
for the reply (id 1, waiter channel 7, starting from an empty table) does
return the cancellation error, but its routing-table entry under id 1 is
still present afterwards — the claim that the entry is removed, leaving no
stale entry, is false. -/
theorem mkdir_cancel_leaves_stale_entry_counterexample :
    Mkdir CtxState.live CtxState.canceled 1 7 true [] none =
      (some CallError.ctxCanceled, [(Key.num 1, Waiter.byteCh 7)]) ∧
    Table.load [(Key.num 1, Waiter.byteCh 7)] (Key.num 1) = some (Waiter.byteCh 7) := by
  decide

/-- C2 amended: a pending Mkdir whose context is canceled before a reply is
delivered returns the distinct cancellation error, but the routing-table
entry registered under its allocated id is NOT removed: the stale entry
remains loadable. -/
theorem mkdir_cancel_returns_error_but_leaks_entry (id respCh : Nat) (t : Table)
    (body : Option (Response String APIError)) :
    Mkdir CtxState.live CtxState.canceled id respCh true t body =
      (some CallError.ctxCanceled, t.store (Key.num id) (Waiter.byteCh respCh)) ∧
    (t.store (Key.num id) (Waiter.byteCh respCh)).load (Key.num id) =
      some (Waiter.byteCh respCh) := by
  refine ⟨?_, Table.load_store t _ _⟩
  simp [Mkdir, writeRequest]

/-! ## C3 -/

/-- C3 counterexample: a malformed frame followed by a well-formed frame
whose waiter (id 1, channel 10) is registered: the dispatcher loop stops
with the unmarshal error at the malformed frame; the well-formed frame is
left undelivered, refuting that the dispatcher drops only the single bad
frame and continues. -/
theorem malformed_frame_terminates_dispatcher_counterexample :
    readLoop 10 ⟨[Frame.malformed, Frame.wellFormed ⟨"", 1, ""⟩],
        [(Key.num 1, Waiter.byteCh 10)], [], [], false⟩ =
      (⟨[Frame.wellFormed ⟨"", 1, ""⟩], [(Key.num 1, Waiter.byteCh 10)], [], [], false⟩,
        some "unmarshal") := by
  rfl

/-- C3 amended: a frame that fails to decode makes the read loop return the
unmarshal error immediately — terminating the dispatcher — rather than
logging and dropping the single frame; no subsequent queued frame is
processed or delivered. -/
theorem malformed_frame_returns_error_ending_loop (n : Nat) (s : ReadState)
    (rest : List Frame) (h : s.msgQueue = Frame.malformed :: rest) :
    readLoop (n + 1) s = ({ s with msgQueue := rest }, some "unmarshal") := by
  cases s with
  | mk q tb dl cc wc =>
    simp only at h
    subst h
    simp [readLoop, processFrame, decode]

/-- Witness state for C3: a malformed frame queued ahead of a well-formed
one. -/
def c3State : ReadState :=
  ⟨[Frame.malformed, Frame.wellFormed ⟨"", 2, ""⟩], [], [], [], false⟩

/-- Witness for C3's amended theorem at the concrete state `c3State`. -/
theorem malformed_frame_returns_error_ending_loop_witness :
    c3State.msgQueue = Frame.malformed :: [Frame.wellFormed ⟨"", 2, ""⟩] ∧
    readLoop (3 + 1) c3State =
      ({ c3State with msgQueue := [Frame.wellFormed ⟨"", 2, ""⟩] }, some "unmarshal") :=
  ⟨rfl, malformed_frame_returns_error_ending_loop 3 c3State _ rfl⟩

/-! ## C4 -/

set_option maxRecDepth 20000 in
/-- C4 counterexample: a well-formed frame for id 9, with only id 1
registered, recirculates unchanged through the dispatcher: after 1000 loop
iterations it is still in the queue, nothing was delivered, and no error or
diagnostic was produced — refuting bounded retries and eventual discard. -/
theorem unmatched_frame_never_discarded_counterexample :
    readLoop 1000 ⟨[Frame.wellFormed ⟨"", 9, ""⟩],
        [(Key.num 1, Waiter.byteCh 10)], [], [], false⟩ =
      (⟨[Frame.wellFormed ⟨"", 9, ""⟩], [(Key.num 1, Waiter.byteCh 10)], [], [], false⟩,
        none) := by
  decide

/-- C4 amended: a decodable inbound frame with no matching routing-table
entry is requeued to the back of the same message queue and retried without
any retry bound, backoff or discard: for every number of loop iterations the
state is exactly unchanged — the frame is never dropped and no diagnostic is
ever emitted. -/
theorem unmatched_frame_requeued_forever (n : Nat) (f : Frame) (d : DecResp)
    (t : Table) (dl : List (Nat × Frame)) (cc : List Nat) (wc : Bool)
    (h1 : decode f = some d) (h2 : route t f = none) :
    readLoop n ⟨[f], t, dl, cc, wc⟩ = (⟨[f], t, dl, cc, wc⟩, none) := by
  induction n with
  | zero => rfl
  | succ n ih =>
    rcases hl : t.load (dispatchKey d) with _ | w
    · simp only [readLoop, processFrame, h1, hl]
      simpa using ih
    · cases w with
      | byteCh ch =>
        simp [route, h1, hl] at h2
      | eventCh ch =>
        simp only [readLoop, processFrame, h1, hl]
        simpa using ih

/-- Witness for C4's amended theorem: the id-9 frame against a table holding
only id 1, for 5 iterations. -/
theorem unmatched_frame_requeued_forever_witness :
    decode (Frame.wellFormed ⟨"", 9, ""⟩) = some ⟨"", 9, ""⟩ ∧
    route [(Key.num 1, Waiter.byteCh 10)] (Frame.wellFormed ⟨"", 9, ""⟩) = none ∧
    readLoop 5 ⟨[Frame.wellFormed ⟨"", 9, ""⟩], [(Key.num 1, Waiter.byteCh 10)], [], [], false⟩ =
      (⟨[Frame.wellFormed ⟨"", 9, ""⟩], [(Key.num 1, Waiter.byteCh 10)], [], [], false⟩, none) :=
  ⟨rfl, rfl,
    unmatched_frame_requeued_forever 5 (Frame.wellFormed ⟨"", 9, ""⟩) ⟨"", 9, ""⟩
      [(Key.num 1, Waiter.byteCh 10)] [] [] false rfl rfl⟩

/-! ## C5 -/

/-- C5 counterexample: the read loop ends (here on a malformed frame, i.e. a
decode failure standing for any fatal exit) while waiter channel 7 is still
registered under id 5: the deferred cleanup closes only the websocket — the
waiter receives no synthetic frame (delivered stays empty), its channel is
not closed (closedChans stays empty), and its entry is still in the table,
so the caller blocked on channel 7 is never notified. -/
theorem read_exit_notifies_no_waiter_counterexample :
    readRun 10 ⟨[Frame.malformed], [(Key.num 5, Waiter.byteCh 7)], [], [], false⟩ =
      (⟨[], [(Key.num 5, Waiter.byteCh 7)], [], [], true⟩, some "unmarshal") := by
  rfl

/-- C5 amended: when `read` exits, its only cleanup is the deferred
`ws.Close()`: the routing table is left exactly as it was, and no waiter
channel is ever closed — registered waiters are not notified in any way. -/
theorem read_exit_only_closes_socket (fuel : Nat) (s : ReadState) :
    (readRun fuel s).1.table = s.table ∧
    (readRun fuel s).1.closedChans = s.closedChans ∧
    (readRun fuel s).1.wsClosed = true := by
  have hp := readLoop_preserves fuel s
  unfold readRun
  cases hl : readLoop fuel s with
  | mk s1 e =>
    rw [hl] at hp
    exact ⟨hp.1, hp.2, rfl⟩

/-! ## C6 -/

/-- Wrapping is idempotent under addition: wrapping an already-wrapped
value before adding gives the same 64-bit result as adding first. -/
theorem wrapInt64_add (x y : Int) :
    wrapInt64 (wrapInt64 x + y) = wrapInt64 (x + y) := by
  unfold wrapInt64
  have h63 : (2 : Int) ^ 63 = 9223372036854775808 := by norm_num
  have h64 : (2 : Int) ^ 64 = 18446744073709551616 := by norm_num
  rw [h63, h64]
  omega

/-- Closed form of the allocator stream: the k-th id sent is 1 + k wrapped
into 64-bit range. -/
theorem identifyNth_eq_wrap (k : Nat) : identifyNth k = wrapInt64 (1 + k) := by
  induction k with
  | zero =>
    show (1 : Int) = wrapInt64 (1 + (0 : Nat))
    unfold wrapInt64
    decide
  | succ k ih =>
    show identifyStep (identifyNth k) = wrapInt64 (1 + ((k : Nat) + 1 : Nat))
    rw [ih]
    unfold identifyStep
    rw [wrapInt64_add]
    congr 1

/-- Before overflow the wrap is the identity: for k up to 2^63 - 2 the k-th
id is exactly 1 + k. -/
theorem identifyNth_before_overflow (k : Nat) (h : k ≤ 2 ^ 63 - 2) :
    identifyNth k = 1 + k := by
  rw [identifyNth_eq_wrap]
  unfold wrapInt64
  have h63 : (2 : Int) ^ 63 = 9223372036854775808 := by norm_num
  have h64 : (2 : Int) ^ 64 = 18446744073709551616 := by norm_num
  have hN : k ≤ 9223372036854775806 := by
    have : (2 : Nat) ^ 63 - 2 = 9223372036854775806 := by norm_num
    omega
  rw [h63, h64]
  omega

/-- C6 counterexample: the Go `int` counter wraps: the id sent on send
number 2^63 - 1 (0-based) is -2^63 — negative, hence neither positive nor
greater than the ids before it — and the id sent on send number 2^64
equals the very first id, 1, so the allocator does yield the same integer
twice within one connection's lifetime. -/
theorem identify_wraps_and_repeats_counterexample :
    identifyNth (2 ^ 63 - 1) = -(2 ^ 63) ∧
    identifyNth (2 ^ 63 - 1) < 0 ∧
    identifyNth (2 ^ 64) = 1 ∧
    identifyNth 0 = 1 := by
  have h1 := identifyNth_eq_wrap (2 ^ 63 - 1)
  have h2 := identifyNth_eq_wrap (2 ^ 64)
  refine ⟨?_, ?_, ?_, rfl⟩
  · rw [h1]; unfold wrapInt64; decide
  · rw [h1]; unfold wrapInt64; decide
  · rw [h2]; unfold wrapInt64; decide

/-- C6 amended: for the first 2^63 - 1 allocations — before the 64-bit
counter overflows — every id handed out is positive, strictly greater than
every id handed out before it, and distinct from it (and the unbuffered
channel hands each to exactly one receiver); at send number 2^63 - 1 the
counter wraps negative and after 2^64 sends the ids repeat. -/
theorem identify_ids_increasing_before_overflow (k m : Nat)
    (hkm : k < m) (hm : m ≤ 2 ^ 63 - 2) :
    0 < identifyNth k ∧ identifyNth k < identifyNth m ∧
    identifyNth k ≠ identifyNth m := by
  have hk : k ≤ 2 ^ 63 - 2 := Nat.le_trans (Nat.le_of_lt hkm) hm
  rw [identifyNth_before_overflow k hk, identifyNth_before_overflow m hm]
  refine ⟨by omega, by omega, by omega⟩

/-- Witness for C6's amended theorem at sends 0 and 5: id 1 precedes id 6. -/
theorem identify_ids_increasing_before_overflow_witness :
    (0 : Nat) < 5 ∧ (5 : Nat) ≤ 2 ^ 63 - 2 ∧
    (0 < identifyNth 0 ∧ identifyNth 0 < identifyNth 5 ∧
      identifyNth 0 ≠ identifyNth 5) :=
  ⟨by decide, by decide, identify_ids_increasing_before_overflow 0 5 (by decide) (by decide)⟩

/-! ## C7 -/

/-- An event carrying the remote-issued token "sub-1" while the watched
path is "/tmp". -/
def evWithToken : Event :=
  ⟨"", "", 0, "", ⟨"sub-1", ⟨"", "hello", 0, false, ""⟩⟩⟩

/-- An event carrying a subscription token different from the one the
process subscription was issued ("other-token" instead of "sub-1"). -/
def evOtherToken : Event :=
  ⟨"", "", 0, "", ⟨"other-token", ⟨"", "hi", 0, false, ""⟩⟩⟩

/-- An event whose top-level error field is populated. -/
def evWithError : Event :=
  ⟨"", "", 0, "boom", ⟨"sub-1", ⟨"", "", 0, false, ""⟩⟩⟩

/-- C7 counterexample: with remote token "sub-1" and watched path "/tmp",
the Watch consumer SKIPS the event whose subscription field equals the
token (it compares against the path, not the token); the process-subscribe
consumer FORWARDS an event whose subscription field differs from the token
(it never compares tokens at all); and an event carrying a non-empty error
is merely skipped by the process-subscribe consumer — the loop goes on to
forward later events — rather than terminating the Active state. -/
theorem event_token_filter_counterexample :
    watchStep "/tmp" (some evWithToken) = ConsumerAction.skip ∧
    subscribeStep evOtherToken = ConsumerAction.forward evOtherToken ∧
    subscribeStep evWithError = ConsumerAction.skip ∧
    consumeAll subscribeStep [evWithError, evOtherToken] = [evOtherToken] := by
  decide

/-- C7 amended: the Watch consumer discards events whose subscription field
differs from the watched PATH (not the remote token) and stops on a
non-empty error field; the process-subscribe consumer applies no
subscription filter at all — it forwards every decoded error-free event —
and an event with a non-empty error field is logged and skipped without
ending the Active loop. -/
theorem event_filtering_as_implemented (path : String) (e eErr : Event)
    (h1 : e.error = "") (h2 : eErr.error ≠ "") :
    (e.params.subscription ≠ path → watchStep path (some e) = ConsumerAction.skip) ∧
    (e.params.subscription = path → watchStep path (some e) = ConsumerAction.forward e) ∧
    watchStep path (some eErr) = ConsumerAction.stop ∧
    subscribeStep e = ConsumerAction.forward e ∧
    subscribeStep eErr = ConsumerAction.skip := by
  refine ⟨fun hne => ?_, fun heq => ?_, ?_, ?_, ?_⟩ <;>
    simp_all [watchStep, subscribeStep]

/-- Witness for C7's amended theorem: path "/tmp", the token-bearing event
(whose subscription "sub-1" differs from the path, hence skipped by Watch
and forwarded by subscribe) and the error event. -/
theorem event_filtering_as_implemented_witness :
    evWithToken.error = "" ∧ evWithError.error ≠ "" ∧
    ((evWithToken.params.subscription ≠ "/tmp" →
        watchStep "/tmp" (some evWithToken) = ConsumerAction.skip) ∧
    (evWithToken.params.subscription = "/tmp" →
        watchStep "/tmp" (some evWithToken) = ConsumerAction.forward evWithToken) ∧
    watchStep "/tmp" (some evWithError) = ConsumerAction.stop ∧
    subscribeStep evWithToken = ConsumerAction.forward evWithToken ∧
    subscribeStep evWithError = ConsumerAction.skip) :=
  ⟨rfl, by decide,
    event_filtering_as_implemented "/tmp" evWithToken evWithError rfl (by decide)⟩

/-! ## C8 -/

/-- C8 counterexample: with the caller's context already canceled, the
process-subscribe teardown never closes the subscriber's `events` output
channel (it closes only the internal respCh), and the Watch goroutine's
exit performs no unsubscribe call at all — refuting that every
subscription closes its output channel and attempts unsubscribe. -/
theorem subscription_teardown_counterexample :
    (subscribeFinish CtxState.canceled "test-sub-id" 3 7
        [(Key.str "test-sub-id", Waiter.byteCh 7)]).2.eventsClosed = false ∧
    (watchFinish CtxState.canceled).unsubRequest = none ∧
    (watchFinish CtxState.canceled).eventsClosed = false := by
  decide

/-- C8 amended: for the process-subscribe loop, teardown deletes the token
entry and always issues the unsubscribe request under a fresh live scope —
independent of the caller's (possibly canceled) context, so the request is
not short-circuited by cancellation — but the `events` output channel is
never closed; the Watch goroutine performs no unsubscribe and closes
nothing. -/
theorem unsubscribe_fresh_scope_but_channel_never_closed (callerCtx : CtxState)
    (token : String) (unsubId respCh : Nat) (t : Table) :
    (subscribeFinish callerCtx token unsubId respCh t).2.unsubRequest = some CtxState.live ∧
    (subscribeFinish callerCtx token unsubId respCh t).2.tableEntryDeleted = true ∧
    (subscribeFinish callerCtx token unsubId respCh t).2.eventsClosed = false ∧
    (writeRequest CtxState.live unsubId respCh true (t.delete (Key.str token))).1 = none ∧
    (watchFinish callerCtx).unsubRequest = none ∧
    (watchFinish callerCtx).eventsClosed = false := by
  cases callerCtx <;> simp [subscribeFinish, watchFinish, writeRequest]

/-! ## C9 -/

/-- C9 counterexample: a reply whose application-error field is the
non-empty string "boom" — `Ls` still returns the result payload with no
error, and `Write` reports plain success: the error field is never
inspected by either, refuting that every one-shot call surfaces a
non-empty error field as a typed error. -/
theorem ls_write_ignore_error_field_counterexample :
    lsHandleBody (some ⟨3, [⟨"hello.txt", false⟩], "boom"⟩) =
      Except.ok [⟨"hello.txt", false⟩] ∧
    writeHandleBody (some ⟨4, "", "boom"⟩) = Except.ok () :=
  ⟨rfl, rfl⟩

/-- C9 amended: error surfacing is per-operation, not universal: `Read`
turns a non-empty error string into a typed error and `Mkdir` surfaces a
non-zero error code with its message, but `Ls` returns the result payload
ignoring its error field entirely, and `Write` reports success for every
decodable reply without examining any error field. -/
theorem error_surfacing_per_operation (i j : Nat) (res : List LsResult)
    (rs : String) (e : String) (resp : Response String APIError)
    (he : e ≠ "") (hc : resp.error.code ≠ 0) :
    lsHandleBody (some ⟨i, res, e⟩) = Except.ok res ∧
    writeHandleBody (some ⟨j, rs, e⟩) = Except.ok () ∧
    readHandleBody (some ⟨i, rs, e⟩) = Except.error (CallError.remoteErrorStr e) ∧
    (Mkdir CtxState.live CtxState.live i j true [] (some resp)).1 =
      some (CallError.apiError resp.error.code resp.error.message) := by
  refine ⟨rfl, rfl, ?_, ?_⟩
  · simp [readHandleBody, he]
  · simp [Mkdir, writeRequest, hc]

/-- Witness for C9's amended theorem with error string "boom" and error
code 7 / message "denied". -/
theorem error_surfacing_per_operation_witness :
    ("boom" : String) ≠ "" ∧ (Response.mk 9 "" (APIError.mk 7 "denied")).error.code ≠ 0 ∧
    (lsHandleBody (some ⟨1, [], "boom"⟩) = Except.ok [] ∧
    writeHandleBody (some ⟨2, "", "boom"⟩) = Except.ok () ∧
    readHandleBody (some ⟨1, "", "boom"⟩) = Except.error (CallError.remoteErrorStr "boom") ∧
    (Mkdir CtxState.live CtxState.live 1 2 true [] (some ⟨9, "", ⟨7, "denied"⟩⟩)).1 =
      some (CallError.apiError 7 "denied")) :=
  ⟨by decide, by decide,
    error_surfacing_per_operation 1 2 [] "" "boom" ⟨9, "", ⟨7, "denied"⟩⟩
      (by decide) (by decide)⟩

/-! ## C10 -/

/-- Filtering out the entries under key `k` does not change which entry a
search for a different key `kq` finds. -/
theorem find_filter_other_key (k kq : Key) (h : kq ≠ k) :
    ∀ t : Table, List.find? (fun p => p.1 == kq) (t.filter (fun p => p.1 != k)) =
      List.find? (fun p => p.1 == kq) t := by
  intro t
  induction t with
  | nil => rfl
  | cons q rest ih =>
    by_cases hq : q.1 = k
    · have h1 : (q.1 != k) = false := by simp [hq]
      have h2 : (q.1 == kq) = false := by
        rw [hq]
        exact beq_eq_false_iff_ne.mpr (Ne.symm h)
      simp [List.filter_cons, List.find?_cons, h1, h2, ih]
    · have h1 : (q.1 != k) = true := by simp [hq]
      by_cases hq2 : q.1 = kq
      · have h2 : (q.1 == kq) = true := by simp [hq2]
        simp [List.filter_cons, List.find?_cons, h1, h2]
      · have h2 : (q.1 == kq) = false := by simp [hq2]
        simp [List.filter_cons, List.find?_cons, h1, h2, ih]

/-- Storing under one key leaves lookups of every other key unchanged. -/
theorem Table.load_store_other (t : Table) (k kq : Key) (v : Waiter)
    (h : kq ≠ k) : (t.store k v).load kq = t.load kq := by
  have hk : (k == kq) = false := beq_eq_false_iff_ne.mpr (Ne.symm h)
  simp only [Table.store, Table.load, List.find?_cons, hk]
  rw [find_filter_other_key k kq h t]

/-- C10 (confirmed): `Start`'s only store is the one inside `writeRequest`,
keyed by the NUMERIC request id, and the token a process subscription
stores under is the remote-issued subscription token, not the process's
string id — so from any table with no entry under the process's string id,
`Done`'s `Map.Load(p.id)` still finds nothing after `Start`, and after a
subscription's token store as well, and `Done` returns nil (`none`); the
subscription loop's process-done `select` case is then a receive from a
nil channel and can never fire. -/
theorem done_returns_nil (t : Table) (id respCh ch : Nat) (procId token : String)
    (h : t.load (Key.str procId) = none) (htok : token ≠ procId) :
    Done (startStore id respCh t) procId = none ∧
    Done ((startStore id respCh t).store (Key.str token) (Waiter.byteCh ch)) procId = none := by
  have hnum : Key.str procId ≠ Key.num id := fun he => Key.noConfusion he
  have hstart : startStore id respCh t = t.store (Key.num id) (Waiter.byteCh respCh) := by
    simp [startStore, writeRequest]
  have h1 : Done (startStore id respCh t) procId = none := by
    show (startStore id respCh t).load (Key.str procId) = none
    rw [hstart, Table.load_store_other t _ _ _ hnum]
    exact h
  refine ⟨h1, ?_⟩
  show ((startStore id respCh t).store (Key.str token) (Waiter.byteCh ch)).load
      (Key.str procId) = none
  have hne : Key.str procId ≠ Key.str token := by
    intro he
    injection he with he2
    exact htok he2.symm
  rw [Table.load_store_other _ _ _ _ hne]
  exact h1

/-- Witness for C10: from the empty table, after a Start under request id 1
with waiter channel 7 and a subscription store under the remote token
"test-sub-id" with channel 9, Done for the process id "wXyZ" is nil. -/
theorem done_returns_nil_witness :
    Table.load [] (Key.str "wXyZ") = none ∧ ("test-sub-id" : String) ≠ "wXyZ" ∧
    (Done (startStore 1 7 []) "wXyZ" = none ∧
    Done ((startStore 1 7 []).store (Key.str "test-sub-id") (Waiter.byteCh 9)) "wXyZ" = none) :=
  ⟨rfl, by decide, done_returns_nil [] 1 7 9 "wXyZ" "test-sub-id" rfl (by decide)⟩

end E2B
